import Mathlib

/-!
Verification of the user-event sink connector (TypeScript sources
`src/UserEventUtils.ts`, `src/UserEventSinkConnector.ts`, and the retrying
example driver `main.js`).  JavaScript values flowing through the pipeline are
embedded as the inductive `JValue`; `undefined` and `null` are conflated into
`JValue.jnull` (the source treats them alike at every decision point:
`value == null`, `!value`, `=== null || === undefined`).  Numbers are embedded
as integers, which covers every numeric literal appearing in the pipeline's
decision logic.
-/

/-- A JavaScript/JSON value.  `jnull` stands for both `null` and `undefined`. -/
inductive JValue where
  | jnull : JValue
  | jbool : Bool → JValue
  | jnum : Int → JValue
  | jstr : String → JValue
  | jarr : List JValue → JValue
  | jobj : List (String × JValue) → JValue

/-- `value === null || value === undefined` (also `value == null`). -/
def JValue.isNull : JValue → Bool
  | .jnull => true
  | _ => false

/-- JavaScript truthiness test `!v` (negated): `null`, `undefined`, `false`,
`0` and the empty string are falsy; every array and object is truthy. -/
def jsFalsy : JValue → Bool
  | .jnull => true
  | .jbool b => !b
  | .jnum n => n == 0
  | .jstr s => s == ""
  | .jarr _ => false
  | .jobj _ => false

/-- Property access `v.key`: `none` models `undefined` (missing key, or any
receiver without properties).  Object keys are assumed unique, as they are in
a JavaScript object literal. -/
def getProp (v : JValue) (key : String) : Option JValue :=
  match v with
  | .jobj kvs => kvs.lookup key
  | _ => none

/-- Truthiness of a property lookup: a missing key (`undefined`) is falsy. -/
def jsFalsyOpt : Option JValue → Bool
  | none => true
  | some v => jsFalsy v

mutual
/-- JavaScript string coercion `String(v)` for the values of the model:
scalars render themselves, arrays join their elements with commas
(`null`/`undefined` elements render empty), objects render
`[object Object]`. -/
def jsToString : JValue → String
  | .jnull => "null"
  | .jbool true => "true"
  | .jbool false => "false"
  | .jnum n => toString n
  | .jstr s => s
  | .jarr xs => arrJoin xs
  | .jobj _ => "[object Object]"

/-- `Array.prototype.toString`: elements joined by commas. -/
def arrJoin : List JValue → String
  | [] => ""
  | [x] => elemToString x
  | x :: xs => elemToString x ++ "," ++ arrJoin xs

/-- An array element inside `join`: `null`/`undefined` render as the empty
string, all other values via `String(v)`. -/
def elemToString : JValue → String
  | .jnull => ""
  | v => jsToString v
end

/-- JSON string escaping for one character (the cases produced by
`JSON.stringify`). -/
def escapeJsonChar (c : Char) : String :=
  if c = '"' then "\\\""
  else if c = '\\' then "\\\\"
  else if c = '\n' then "\\n"
  else if c = '\t' then "\\t"
  else if c = '\r' then "\\r"
  else String.singleton c

/-- A JSON string literal: the escaped characters wrapped in quotes. -/
def jsonQuote (s : String) : String :=
  "\"" ++ String.join (s.toList.map escapeJsonChar) ++ "\""

mutual
/-- `JSON.stringify(v)` (no spacing).  `undefined` is conflated with `null`
in the model, so it serializes as `null`. -/
def jsonStringify : JValue → String
  | .jnull => "null"
  | .jbool true => "true"
  | .jbool false => "false"
  | .jnum n => toString n
  | .jstr s => jsonQuote s
  | .jarr xs => "[" ++ stringifyElems xs ++ "]"
  | .jobj kvs => "\x7b" ++ stringifyEntries kvs ++ "\x7d"

/-- Array elements of `JSON.stringify`, comma separated. -/
def stringifyElems : List JValue → String
  | [] => ""
  | [x] => jsonStringify x
  | x :: xs => jsonStringify x ++ "," ++ stringifyElems xs

/-- Object entries of `JSON.stringify`, comma separated. -/
def stringifyEntries : List (String × JValue) → String
  | [] => ""
  | [(k, v)] => jsonQuote k ++ ":" ++ jsonStringify v
  | (k, v) :: rest => jsonQuote k ++ ":" ++ jsonStringify v ++ "," ++ stringifyEntries rest
end

/-- Exponent part of a JavaScript numeric literal: empty, or `e`/`E`, an
optional sign, and at least one digit ending the string. -/
def expOk : List Char → Bool
  | [] => true
  | c :: rest =>
    if c = 'e' || c = 'E' then
      match rest with
      | [] => false
      | d :: ds =>
        if d = '+' || d = '-' then !ds.isEmpty && ds.all Char.isDigit
        else (d :: ds).all Char.isDigit
    else false

/-- Unsigned decimal numeric literal: `digits [. digits] [exp]` or
`. digits [exp]`. -/
def decOk (cs : List Char) : Bool :=
  let p := cs.span Char.isDigit
  if !p.1.isEmpty then
    match p.2 with
    | '.' :: r2 => expOk (r2.dropWhile Char.isDigit)
    | r1 => expOk r1
  else
    match cs with
    | '.' :: r2 =>
      let q := r2.span Char.isDigit
      !q.1.isEmpty && expOk q.2
    | _ => false

def isHexChar (c : Char) : Bool :=
  c.isDigit || ('a' ≤ c && c ≤ 'f') || ('A' ≤ c && c ≤ 'F')

def isOctChar (c : Char) : Bool := '0' ≤ c && c ≤ '7'

def isBinChar (c : Char) : Bool := c = '0' || c = '1'

/-- Unsigned numeric literal: decimal form, `Infinity`, or a radix-prefixed
integer (`0x`, `0o`, `0b`). -/
def unsignedOk (cs : List Char) : Bool :=
  decOk cs || cs == "Infinity".toList ||
  (match cs with
   | '0' :: x :: rest =>
     if x = 'x' || x = 'X' then !rest.isEmpty && rest.all isHexChar
     else if x = 'o' || x = 'O' then !rest.isEmpty && rest.all isOctChar
     else if x = 'b' || x = 'B' then !rest.isEmpty && rest.all isBinChar
     else false
   | _ => false)

/-- The ASCII whitespace characters stripped by JavaScript's string
trimming (the Unicode space characters JavaScript also strips are outside
the model). -/
def isJsWhite (c : Char) : Bool :=
  c = ' ' || c = '\t' || c = '\n' || c = '\r' || c = '\x0b' || c = '\x0c'

/-- JavaScript's `String.prototype.trim`: strip leading and trailing
whitespace. -/
def jsTrim (s : String) : String :=
  ⟨((s.data.dropWhile isJsWhite).reverse.dropWhile isJsWhite).reverse⟩

/-- Whether `Number(s)` yields a non-`NaN` value for a string `s`: after
trimming whitespace, the empty string coerces to `0`, otherwise the string
must be an optionally signed decimal literal or `Infinity`, or an unsigned
radix-prefixed literal.  This decides the source's
`isNaN(Number(timestamp))` check. -/
def jsNumericStr (s : String) : Bool :=
  let t := jsTrim s
  if t = "" then true
  else
    match t.toList with
    | '+' :: rest => decOk rest || rest == "Infinity".toList
    | '-' :: rest => decOk rest || rest == "Infinity".toList
    | cs => unsignedOk cs

mutual
/-- `UserEventUtils.filterNulls` (src/UserEventUtils.ts:142-175): `null` and
`undefined` return `null`; arrays are filtered by `filterArray`; scalars pass
through; objects drop entries whose value is `null`/`undefined` and
recursively filter the remaining array/object values. -/
def filterNulls : JValue → JValue
  | .jnull => .jnull
  | .jarr xs => .jarr (filterArray xs)
  | .jobj kvs => .jobj (filterEntries kvs)
  | v => v

/-- The `Object.entries` loop inside `filterNulls`. -/
def filterEntries : List (String × JValue) → List (String × JValue)
  | [] => []
  | (k, v) :: rest =>
    if v.isNull then filterEntries rest
    else (k, filterItem v) :: filterEntries rest

/-- `UserEventUtils.filterArray` (src/UserEventUtils.ts:183-199): drop
`null`/`undefined` elements, then recursively process the survivors. -/
def filterArray : List JValue → List JValue
  | [] => []
  | x :: xs =>
    if x.isNull then filterArray xs
    else filterItem x :: filterArray xs

/-- The per-value dispatch shared by the object loop and the array `map`:
arrays go to `filterArray`, objects to `filterNulls`, scalars are returned
unchanged. -/
def filterItem : JValue → JValue
  | .jarr xs => .jarr (filterArray xs)
  | .jobj kvs => .jobj (filterEntries kvs)
  | v => v
end

mutual
/-- No object entry anywhere in the value is bound to `null`/`undefined`. -/
def noNullKeys : JValue → Bool
  | .jarr xs => noNullKeysList xs
  | .jobj kvs => noNullKeysEntries kvs
  | _ => true

def noNullKeysList : List JValue → Bool
  | [] => true
  | x :: xs => noNullKeys x && noNullKeysList xs

def noNullKeysEntries : List (String × JValue) → Bool
  | [] => true
  | (_, v) :: rest => !v.isNull && noNullKeys v && noNullKeysEntries rest
end

mutual
/-- The value contains no `null`/`undefined` anywhere: not at the top, not as
an array element, not as an object entry, at any depth. -/
def nullFree : JValue → Bool
  | .jnull => false
  | .jarr xs => nullFreeList xs
  | .jobj kvs => nullFreeEntries kvs
  | _ => true

def nullFreeList : List JValue → Bool
  | [] => true
  | x :: xs => nullFree x && nullFreeList xs

def nullFreeEntries : List (String × JValue) → Bool
  | [] => true
  | (_, v) :: rest => nullFree v && nullFreeEntries rest
end

/-- The two JavaScript exception classes thrown by the connector:
`SyntaxError` for permanent input failures and plain `Error` for delivery
failures. -/
inductive JSError where
  | syntaxError : String → JSError
  | error : String → JSError

/-- `e instanceof SyntaxError`. -/
def JSError.isSyntaxError : JSError → Bool
  | .syntaxError _ => true
  | .error _ => false

/-- The `message` property of the exception. -/
def JSError.message : JSError → String
  | .syntaxError m => m
  | .error m => m

/-- `UserEventUtils.testCommon` (src/UserEventUtils.ts:55-72): reject falsy
data, reject a falsy `timestamp` property, reject a timestamp whose string
coercion is empty, reject a timestamp whose string coercion is not coercible
to a number. -/
def testCommon (data : JValue) : Except JSError Unit :=
  if jsFalsy data then
    .error (.syntaxError "Data parameter cannot be null")
  else
    match getProp data "timestamp" with
    | none =>
      .error (.syntaxError ("The timestamp field must be present: " ++ jsonStringify data))
    | some ts =>
      if jsFalsy ts then
        .error (.syntaxError ("The timestamp field must be present: " ++ jsonStringify data))
      else
        if jsToString ts = "" then
          .error (.syntaxError ("The timestamp field cannot be null: " ++ jsonStringify data))
        else if !jsNumericStr (jsToString ts) then
          .error (.syntaxError
            ("The timestamp field must be a Unix timestamp in milliseconds: " ++ jsonStringify data))
        else
          .ok ()

/-- `UserEventUtils.testHome` (also bound to `LAND`): no additional checks. -/
def testHome (_data : JValue) : Except JSError Unit := .ok ()

/-- `UserEventUtils.testPDP`: `items` must be a non-empty array. -/
def testPDP (data : JValue) : Except JSError Unit :=
  match getProp data "items" with
  | some (.jarr (_ :: _)) => .ok ()
  | _ =>
    .error (.syntaxError ("The items field must be a non-empty array: " ++ jsonStringify data))

/-- `UserEventUtils.testSearch`: `search_query` must be truthy. -/
def testSearch (data : JValue) : Except JSError Unit :=
  if jsFalsyOpt (getProp data "search_query") then
    .error (.syntaxError
      ("The search_query field must be present and non-empty: " ++ jsonStringify data))
  else .ok ()

/-- `UserEventUtils.testPageView`: `page_id` must be truthy. -/
def testPageView (data : JValue) : Except JSError Unit :=
  if jsFalsyOpt (getProp data "page_id") then
    .error (.syntaxError
      ("The page_id field must be present and non-empty: " ++ jsonStringify data))
  else .ok ()

/-- `UserEventUtils.testPurchase`: `items` must be a non-empty array, with a
PURCHASE-specific message. -/
def testPurchase (data : JValue) : Except JSError Unit :=
  match getProp data "items" with
  | some (.jarr (_ :: _)) => .ok ()
  | _ =>
    .error (.syntaxError
      ("The items field must be a non-empty array for PURCHASE event: " ++ jsonStringify data))

/-- The validation rules bound in the `testActions` map. -/
inductive ActionKind where
  | home | pdp | search | pageView | purchase

/-- The `testActions` map built in the `UserEventUtils` constructor
(src/UserEventUtils.ts:14-23). -/
def testActions : List (String × ActionKind) :=
  [("HOME", .home), ("LAND", .home),
   ("ITEM_PAGE_VIEW", .pdp), ("ADD_TO_CART", .pdp), ("ADD_TO_WISHLIST", .pdp),
   ("SEARCH", .search), ("PAGE_VIEW", .pageView), ("PURCHASE", .purchase)]

/-- `this.testActions.get(data.event_type)`: map keys are strings, so a
non-string `event_type` never matches. -/
def lookupAction : JValue → Option ActionKind
  | .jstr s => testActions.lookup s
  | _ => none

/-- Running the validation rule retrieved from the map. -/
def runAction : ActionKind → JValue → Except JSError Unit
  | .home, d => testHome d
  | .pdp, d => testPDP d
  | .search, d => testSearch d
  | .pageView, d => testPageView d
  | .purchase, d => testPurchase d

/-- `UserEventUtils.validateData` (src/UserEventUtils.ts:32-46): common
fields first, then a falsy `event_type` is reported missing, an unmatched
type is reported unknown (interpolating the value), and otherwise the bound
rule runs. -/
def validateData (data : JValue) : Except JSError Unit := do
  testCommon data
  match getProp data "event_type" with
  | none => .error (.syntaxError "The event_type field is missing")
  | some et =>
    if jsFalsy et then .error (.syntaxError "The event_type field is missing")
    else
      match lookupAction et with
      | none => .error (.syntaxError ("Unknown event type: " ++ jsToString et))
      | some a => runAction a data

/-- The connector's identity state: the three `private readonly` string
fields of `UserEventSinkConnector` (src/UserEventSinkConnector.ts:37-39). -/
structure Connector where
  platformID : String
  eventApiHostname : String
  eventApiKey : String

/-- `UserEventSinkConnector.validateParameter`
(src/UserEventSinkConnector.ts:72-77): `!value` (null or empty) or an
empty-after-trim value raises `SyntaxError`; otherwise the trimmed value is
returned.  A missing (`null`) argument is `none`. -/
def validateParameter (paramName : String) (value : Option String) : Except JSError String :=
  match value with
  | none => .error (.syntaxError (paramName ++ " cannot be null or empty"))
  | some s =>
    if s = "" || jsTrim s = "" then
      .error (.syntaxError (paramName ++ " cannot be null or empty"))
    else .ok (jsTrim s)

/-- The `UserEventSinkConnector` constructor
(src/UserEventSinkConnector.ts:50-61): the three parameters validated in
order, the trimmed values stored. -/
def mkConnector (platformID eventApiHostname eventApiKey : Option String) :
    Except JSError Connector := do
  let p ← validateParameter "platformID" platformID
  let h ← validateParameter "eventApiHostname" eventApiHostname
  let k ← validateParameter "eventApiKey" eventApiKey
  .ok ⟨p, h, k⟩

/-- An HTTP response as the connector observes it: a status code and the
text of the body. -/
structure HttpResponse where
  status : Nat
  body : String

/-- node-fetch's `response.ok`: `status >= 200 && status < 300` (quoted in
the source comment at src/UserEventSinkConnector.ts:138). -/
def respOk (r : HttpResponse) : Bool := (200 ≤ r.status) && (r.status < 300)

/-- The outcome of one `fetch` call: the promise resolves with a response
object (possibly `null`/`undefined`, as the tests exercise), or rejects with
an error carrying a message. -/
inductive FetchOutcome where
  | response : Option HttpResponse → FetchOutcome
  | throws : String → FetchOutcome

/-- The spec's *successful* classification: the call resolved with a
response whose status is in the 2xx range. -/
def isSuccess : FetchOutcome → Bool
  | .response (some r) => respOk r
  | _ => false

/-- `UserEventSinkConnector.handleResponse`
(src/UserEventSinkConnector.ts:131-145): a null response raises, a 2xx
response returns its body, anything else raises with the status code and the
body text. -/
def handleResponse : Option HttpResponse → Except JSError String
  | none => .error (.error "HTTP response cannot be null")
  | some r =>
    if respOk r then .ok r.body
    else
      .error (.error
        ("Request failed: status code: " ++ toString r.status ++ ", reason phrase: " ++ r.body))

/-- The pre-network phase of `UserEventSinkConnector.send`
(src/UserEventSinkConnector.ts:87-102): falsy data raises, then
`validateData`, then the filtered payload is checked for falsiness.  `none`
means the phase passed and the request will be issued. -/
def preNetwork (data : JValue) : Option JSError :=
  if jsFalsy data then some (.syntaxError "The data cannot be null or empty")
  else
    match validateData data with
    | .error e => some e
    | .ok () =>
      if jsFalsy (filterNulls data) then
        some (.syntaxError "Failed to process JSON data: filtered result is null")
      else none

/-- `UserEventSinkConnector.send` (src/UserEventSinkConnector.ts:87-121) for
one `fetch` outcome: pre-network failures propagate unwrapped; everything
thrown inside the `try` block — a rejecting `fetch` or a `handleResponse`
failure — is re-raised as a plain `Error` prefixed with
`Failed to send request: `. -/
def sendResult (data : JValue) (outcome : FetchOutcome) : Except JSError String :=
  match preNetwork data with
  | some e => .error e
  | none =>
    match outcome with
    | .throws m => .error (.error ("Failed to send request: " ++ m))
    | .response r =>
      match handleResponse r with
      | .ok b => .ok b
      | .error e => .error (.error ("Failed to send request: " ++ e.message))

/-- The number of network calls one invocation of `send` performs: zero when
the pre-network phase raises, one otherwise. -/
def sendCalls (data : JValue) : Nat :=
  if (preNetwork data).isSome then 0 else 1

/-- The observable trace of a delivery: the final result, the number of
network calls issued, and the `setTimeout` wait durations (in milliseconds)
in order. -/
structure RetryTrace where
  result : Except JSError String
  calls : Nat
  waits : List Nat

/-- The retry loop of the example driver (main.js in the repository,
src/unnamed/part_002:88-117) around `connector.send`: a `SyntaxError` is
re-thrown immediately; any other error increments `retryCount`, re-throws
when the limit is reached, and otherwise sleeps `waitTime` milliseconds,
doubles `waitTime`, and retries.  `outcomes n` is the transport outcome of
the n-th `fetch`; `fuel` is `maxRetries - retryCount`, the number of loop
iterations still allowed. -/
def retryAux (data : JValue) (outcomes : Nat → FetchOutcome) (maxRetries : Nat) :
    Nat → Nat → Nat → RetryTrace
  | _, _, 0 => ⟨.ok "", 0, []⟩
  | retryCount, waitTime, fuel + 1 =>
    match sendResult data (outcomes retryCount) with
    | .ok body => ⟨.ok body, sendCalls data, []⟩
    | .error e =>
      if e.isSyntaxError then ⟨.error e, sendCalls data, []⟩
      else if retryCount + 1 == maxRetries then ⟨.error e, sendCalls data, []⟩
      else
        let t := retryAux data outcomes maxRetries (retryCount + 1) (waitTime * 2) fuel
        ⟨t.result, sendCalls data + t.calls, waitTime :: t.waits⟩

/-- One delivery as the example driver performs it: `maxRetries = 3`,
`retryCount = 0`, `waitTime = 100` (src/unnamed/part_002:89-91). -/
def sendWithRetry (data : JValue) (outcomes : Nat → FetchOutcome) : RetryTrace :=
  retryAux data outcomes 3 0 100 3

/-- The message of the error a transient outcome produces inside `send`
before wrapping: the transport error's message, the null-response message,
or the non-2xx status line. -/
def transientReason : FetchOutcome → String
  | .throws m => m
  | .response none => "HTTP response cannot be null"
  | .response (some r) =>
    "Request failed: status code: " ++ toString r.status ++ ", reason phrase: " ++ r.body

/-- `small` occurs as a contiguous segment of `big`. -/
def containsSeg (small : List Char) : List Char → Bool
  | [] => small.isEmpty
  | c :: rest => small.isPrefixOf (c :: rest) || containsSeg small rest

/-- `small` occurs as a substring of `big`. -/
def strContainsSub (big small : String) : Bool :=
  containsSeg small.toList big.toList

/-- The source's constructor guard `!value || value.trim() === ''` as a
predicate on an optional string argument. -/
def isBlankParam (v : Option String) : Bool :=
  match v with
  | none => true
  | some s => s == "" || jsTrim s == ""

/-- A well-formed `HOME` event (the shape used throughout the repository's
tests). -/
def validEvent : JValue :=
  .jobj [("timestamp", .jstr "1617870506121"), ("event_type", .jstr "HOME")]

/-- A transport that answers every attempt with HTTP 400, as in the spec's
retry scenario. -/
def alwaysBadRequest : Nat → FetchOutcome :=
  fun _ => .response (some ⟨400, "Bad Request"⟩)

/-- A transport that answers every attempt with HTTP 200. -/
def alwaysOkBody : Nat → FetchOutcome :=
  fun _ => .response (some ⟨200, "ok"⟩)

/-- An event whose `timestamp` is the number `0`: present and numerically
coercible, yet falsy. -/
def zeroTimestampEvent : JValue := .jobj [("timestamp", .jnum 0)]

/-- An event whose `event_type` is the boolean `false`: the key is present
with a non-null value, but the value is falsy. -/
def falsyTypeEvent : JValue :=
  .jobj [("timestamp", .jstr "1617870506121"), ("event_type", .jbool false)]

/-- An event with valid common fields and an unsupported event type. -/
def unknownTypeEvent : JValue :=
  .jobj [("timestamp", .jstr "1617870506121"), ("event_type", .jstr "FOO")]

/-- A nested payload containing no null values anywhere. -/
def nullFreePayload : JValue :=
  .jobj [("a", .jnum 1), ("b", .jarr [.jstr "x", .jobj [("c", .jbool true)]])]

theorem isPrefixOf_append_self : ∀ l t : List Char, l.isPrefixOf (l ++ t) = true
  | [], _ => by simp [List.isPrefixOf]
  | c :: cs, t => by simp [List.isPrefixOf, isPrefixOf_append_self cs t]

theorem containsSeg_at : ∀ (pre small post : List Char),
    containsSeg small (pre ++ (small ++ post)) = true
  | [], small, post => by
    cases small with
    | nil => cases post with
      | nil => rfl
      | cons c r => simp [containsSeg, List.isPrefixOf]
    | cons a as =>
      simp [containsSeg, isPrefixOf_append_self]
  | c :: cs, small, post => by
    simp [containsSeg, containsSeg_at cs small post]

theorem strContainsSub_intro (big small : String) (pre post : List Char)
    (h : big.toList = pre ++ (small.toList ++ post)) : strContainsSub big small = true := by
  unfold strContainsSub
  rw [h]
  exact containsSeg_at pre _ post

theorem isNull_filterItem (v : JValue) : (filterItem v).isNull = v.isNull := by
  cases v <;> rfl

mutual
theorem filterNulls_filterNulls : ∀ v, filterNulls (filterNulls v) = filterNulls v
  | .jnull => rfl
  | .jbool _ => rfl
  | .jnum _ => rfl
  | .jstr _ => rfl
  | .jarr xs => by simp [filterNulls, filterArray_filterArray xs]
  | .jobj kvs => by simp [filterNulls, filterEntries_filterEntries kvs]

theorem filterItem_filterItem : ∀ v, filterItem (filterItem v) = filterItem v
  | .jnull => rfl
  | .jbool _ => rfl
  | .jnum _ => rfl
  | .jstr _ => rfl
  | .jarr xs => by simp [filterItem, filterArray_filterArray xs]
  | .jobj kvs => by simp [filterItem, filterEntries_filterEntries kvs]

theorem filterArray_filterArray : ∀ xs, filterArray (filterArray xs) = filterArray xs
  | [] => rfl
  | x :: xs => by
    cases h : x.isNull with
    | true => simp [filterArray, h, filterArray_filterArray xs]
    | false =>
      simp [filterArray, h, isNull_filterItem, filterItem_filterItem x,
        filterArray_filterArray xs]

theorem filterEntries_filterEntries :
    ∀ l, filterEntries (filterEntries l) = filterEntries l
  | [] => rfl
  | (k, v) :: rest => by
    cases h : v.isNull with
    | true => simp [filterEntries, h, filterEntries_filterEntries rest]
    | false =>
      simp [filterEntries, h, isNull_filterItem, filterItem_filterItem v,
        filterEntries_filterEntries rest]
end

mutual
theorem noNullKeys_filterNulls : ∀ v, noNullKeys (filterNulls v) = true
  | .jnull => rfl
  | .jbool _ => rfl
  | .jnum _ => rfl
  | .jstr _ => rfl
  | .jarr xs => by simp [filterNulls, noNullKeys, noNullKeysList_filterArray xs]
  | .jobj kvs => by simp [filterNulls, noNullKeys, noNullKeysEntries_filterEntries kvs]

theorem noNullKeys_filterItem : ∀ v, noNullKeys (filterItem v) = true
  | .jnull => rfl
  | .jbool _ => rfl
  | .jnum _ => rfl
  | .jstr _ => rfl
  | .jarr xs => by simp [filterItem, noNullKeys, noNullKeysList_filterArray xs]
  | .jobj kvs => by simp [filterItem, noNullKeys, noNullKeysEntries_filterEntries kvs]

theorem noNullKeysList_filterArray : ∀ xs, noNullKeysList (filterArray xs) = true
  | [] => rfl
  | x :: xs => by
    cases h : x.isNull with
    | true => simp [filterArray, h, noNullKeysList_filterArray xs]
    | false =>
      simp [filterArray, h, noNullKeysList, noNullKeys_filterItem x,
        noNullKeysList_filterArray xs]

theorem noNullKeysEntries_filterEntries :
    ∀ l, noNullKeysEntries (filterEntries l) = true
  | [] => rfl
  | (k, v) :: rest => by
    cases h : v.isNull with
    | true => simp [filterEntries, h, noNullKeysEntries_filterEntries rest]
    | false =>
      simp [filterEntries, h, noNullKeysEntries, isNull_filterItem,
        noNullKeys_filterItem v, noNullKeysEntries_filterEntries rest]
end

theorem isNull_eq_false_of_nullFree (v : JValue) (h : nullFree v = true) :
    v.isNull = false := by
  cases v <;> simp_all [nullFree, JValue.isNull]

mutual
theorem filterNulls_eq_self : ∀ v, nullFree v = true → filterNulls v = v
  | .jnull, h => by simp [nullFree] at h
  | .jbool _, _ => rfl
  | .jnum _, _ => rfl
  | .jstr _, _ => rfl
  | .jarr xs, h => by
    simp [filterNulls, filterArray_eq_self xs (by simpa [nullFree] using h)]
  | .jobj kvs, h => by
    simp [filterNulls, filterEntries_eq_self kvs (by simpa [nullFree] using h)]

theorem filterItem_eq_self : ∀ v, nullFree v = true → filterItem v = v
  | .jnull, h => by simp [nullFree] at h
  | .jbool _, _ => rfl
  | .jnum _, _ => rfl
  | .jstr _, _ => rfl
  | .jarr xs, h => by
    simp [filterItem, filterArray_eq_self xs (by simpa [nullFree] using h)]
  | .jobj kvs, h => by
    simp [filterItem, filterEntries_eq_self kvs (by simpa [nullFree] using h)]

theorem filterArray_eq_self : ∀ xs, nullFreeList xs = true → filterArray xs = xs
  | [], _ => rfl
  | x :: xs, h => by
    have hx : nullFree x = true ∧ nullFreeList xs = true := by
      simpa [nullFreeList, Bool.and_eq_true] using h
    simp [filterArray, isNull_eq_false_of_nullFree x hx.1,
      filterItem_eq_self x hx.1, filterArray_eq_self xs hx.2]

theorem filterEntries_eq_self : ∀ l, nullFreeEntries l = true → filterEntries l = l
  | [], _ => rfl
  | (k, v) :: rest, h => by
    have hx : nullFree v = true ∧ nullFreeEntries rest = true := by
      simpa [nullFreeEntries, Bool.and_eq_true] using h
    simp [filterEntries, isNull_eq_false_of_nullFree v hx.1,
      filterItem_eq_self v hx.1, filterEntries_eq_self rest hx.2]
end

theorem testCommon_syntaxError (d : JValue) (e : JSError)
    (h : testCommon d = .error e) : ∃ m, e = .syntaxError m := by
  unfold testCommon at h
  split at h
  · simp at h; exact ⟨_, h.symm⟩
  · split at h
    · simp at h; exact ⟨_, h.symm⟩
    · split at h
      · simp at h; exact ⟨_, h.symm⟩
      · split at h
        · simp at h; exact ⟨_, h.symm⟩
        · split at h
          · simp at h; exact ⟨_, h.symm⟩
          · simp at h

theorem testPDP_syntaxError (d : JValue) (e : JSError)
    (h : testPDP d = .error e) : ∃ m, e = .syntaxError m := by
  unfold testPDP at h
  split at h
  · simp at h
  · simp at h; exact ⟨_, h.symm⟩

theorem testSearch_syntaxError (d : JValue) (e : JSError)
    (h : testSearch d = .error e) : ∃ m, e = .syntaxError m := by
  unfold testSearch at h
  split at h
  · simp at h; exact ⟨_, h.symm⟩
  · simp at h

theorem testPageView_syntaxError (d : JValue) (e : JSError)
    (h : testPageView d = .error e) : ∃ m, e = .syntaxError m := by
  unfold testPageView at h
  split at h
  · simp at h; exact ⟨_, h.symm⟩
  · simp at h

theorem testPurchase_syntaxError (d : JValue) (e : JSError)
    (h : testPurchase d = .error e) : ∃ m, e = .syntaxError m := by
  unfold testPurchase at h
  split at h
  · simp at h
  · simp at h; exact ⟨_, h.symm⟩

theorem runAction_syntaxError (a : ActionKind) (d : JValue) (e : JSError)
    (h : runAction a d = .error e) : ∃ m, e = .syntaxError m := by
  cases a with
  | home => simp [runAction, testHome] at h
  | pdp => exact testPDP_syntaxError d e h
  | search => exact testSearch_syntaxError d e h
  | pageView => exact testPageView_syntaxError d e h
  | purchase => exact testPurchase_syntaxError d e h

theorem validateData_error_step (d : JValue) (e1 : JSError)
    (hc : testCommon d = .error e1) : validateData d = .error e1 := by
  unfold validateData
  rw [hc]
  rfl

theorem validateData_ok_step (d : JValue) (hc : testCommon d = .ok ()) :
    validateData d =
      (match getProp d "event_type" with
      | none => .error (.syntaxError "The event_type field is missing")
      | some et =>
        if jsFalsy et then .error (.syntaxError "The event_type field is missing")
        else
          match lookupAction et with
          | none => .error (.syntaxError ("Unknown event type: " ++ jsToString et))
          | some a => runAction a d) := by
  unfold validateData
  rw [hc]
  rfl

theorem validateData_syntaxError (d : JValue) (e : JSError)
    (h : validateData d = .error e) : ∃ m, e = .syntaxError m := by
  cases hc : testCommon d with
  | error e1 =>
    rw [validateData_error_step d e1 hc] at h
    simp at h
    exact h ▸ testCommon_syntaxError d e1 hc
  | ok u =>
    cases u
    rw [validateData_ok_step d hc] at h
    split at h
    · simp at h; exact ⟨_, h.symm⟩
    · split at h
      · simp at h; exact ⟨_, h.symm⟩
      · split at h
        · simp at h; exact ⟨_, h.symm⟩
        · exact runAction_syntaxError _ d e h

theorem preNetwork_syntaxError (d : JValue) (e : JSError)
    (h : preNetwork d = some e) : ∃ m, e = .syntaxError m := by
  unfold preNetwork at h
  split at h
  · simp at h; exact ⟨_, h.symm⟩
  · split at h
    · rename_i e1 heq
      simp at h
      exact h ▸ validateData_syntaxError d e1 heq
    · split at h
      · simp at h; exact ⟨_, h.symm⟩
      · simp at h

theorem sendResult_transient (data : JValue) (o : FetchOutcome)
    (hv : preNetwork data = none) (ht : isSuccess o = false) :
    sendResult data o = .error (.error ("Failed to send request: " ++ transientReason o)) := by
  unfold sendResult
  rw [hv]
  cases o with
  | throws m => rfl
  | response r =>
    cases r with
    | none => rfl
    | some resp =>
      have h2 : respOk resp = false := by simpa [isSuccess] using ht
      simp [handleResponse, h2, transientReason, JSError.message]

theorem retryAux_calls_pos (data : JValue) (g : Nat → FetchOutcome)
    (hc : sendCalls data = 1) (rc wt fuel : Nat) :
    1 ≤ (retryAux data g 3 rc wt (fuel + 1)).calls := by
  cases hs : sendResult data (g rc) with
  | ok b => simp [retryAux, hs, hc]
  | error e =>
    cases he : e.isSyntaxError with
    | true => simp [retryAux, hs, he, hc]
    | false =>
      by_cases hm : rc = 2
      · subst hm
        simp [retryAux, hs, he, hc]
      · simp [retryAux, hs, he, hm, hc]

/-- Claim C1: for every valid event, when the transport yields a transient
outcome (non-2xx status, thrown transport error, or null/absent response) on
every attempt and the maximum attempt count is 3, the delivery performs
exactly 3 network calls, suspends 100ms before the second attempt and 200ms
before the third, and raises an error identifying the final outcome (for a
non-2xx response the message contains the final status code); moreover a
transient outcome on the first attempt is always followed by a second
attempt. -/
theorem retry_exhaustion_three_attempts (data : JValue) (outcomes : Nat → FetchOutcome)
    (hv : preNetwork data = none)
    (ht : ∀ i, i < 3 → isSuccess (outcomes i) = false) :
    (sendWithRetry data outcomes).calls = 3 ∧
    (sendWithRetry data outcomes).waits = [100, 200] ∧
    (sendWithRetry data outcomes).result =
      .error (.error ("Failed to send request: " ++ transientReason (outcomes 2))) ∧
    (∀ r, outcomes 2 = .response (some r) →
      strContainsSub ("Failed to send request: " ++ transientReason (outcomes 2))
        (toString r.status) = true) ∧
    (∀ g : Nat → FetchOutcome, isSuccess (g 0) = false →
      2 ≤ (sendWithRetry data g).calls) := by
  have h0 := sendResult_transient data (outcomes 0) hv (ht 0 (by omega))
  have h1 := sendResult_transient data (outcomes 1) hv (ht 1 (by omega))
  have h2 := sendResult_transient data (outcomes 2) hv (ht 2 (by omega))
  have hc : sendCalls data = 1 := by simp [sendCalls, hv]
  have key : sendWithRetry data outcomes =
      ⟨.error (.error ("Failed to send request: " ++ transientReason (outcomes 2))), 3, [100, 200]⟩ := by
    simp [sendWithRetry, retryAux, h0, h1, h2, JSError.isSyntaxError, hc]
  refine ⟨by rw [key], by rw [key], by rw [key], ?_, ?_⟩
  · intro r hr
    apply strContainsSub_intro _ _
      ("Failed to send request: " ++ "Request failed: status code: ").toList
      ((", reason phrase: " ++ r.body).toList)
    rw [hr]
    simp [transientReason, String.toList, String.data_append]
  · intro g hg
    have hg0 := sendResult_transient data (g 0) hv hg
    have key2 : sendWithRetry data g =
        ⟨(retryAux data g 3 1 200 2).result,
         sendCalls data + (retryAux data g 3 1 200 2).calls,
         100 :: (retryAux data g 3 1 200 2).waits⟩ := by
      simp [sendWithRetry, retryAux, hg0, JSError.isSyntaxError, hc]
    rw [key2]
    have hpos : 1 ≤ (retryAux data g 3 1 200 2).calls := retryAux_calls_pos data g hc 1 200 1
    simp [hc]
    omega

/-- Claim C2: for every valid event, when the first attempt resolves with a
2xx response, the delivery returns that response's body and performs exactly
one network call, with no waits. -/
theorem first_attempt_success (data : JValue) (outcomes : Nat → FetchOutcome) (r : HttpResponse)
    (hv : preNetwork data = none) (h0 : outcomes 0 = .response (some r))
    (hok : respOk r = true) :
    sendWithRetry data outcomes = ⟨.ok r.body, 1, []⟩ ∧
    sendResult data (outcomes 0) = .ok r.body := by
  have hs : sendResult data (outcomes 0) = .ok r.body := by
    unfold sendResult
    rw [hv, h0]
    simp [handleResponse, hok]
  refine ⟨?_, hs⟩
  have hc : sendCalls data = 1 := by simp [sendCalls, hv]
  simp [sendWithRetry, retryAux, hs, hc]

/-- Claim C3: when the pre-network phase of `send` fails (null/absent event,
failed validation, or a falsy pruned result), the delivery raises that error
unchanged with zero network calls and zero delay under any transport, and
the error is a `SyntaxError` — a permanent failure, never retried. -/
theorem permanent_failure_no_network (data : JValue) (e : JSError)
    (outcomes : Nat → FetchOutcome) (h : preNetwork data = some e) :
    sendWithRetry data outcomes = ⟨.error e, 0, []⟩ ∧ ∃ m, e = .syntaxError m := by
  have hsyn := preNetwork_syntaxError data e h
  have hs : sendResult data (outcomes 0) = .error e := by
    unfold sendResult
    rw [h]
  have hb : e.isSyntaxError = true := by
    obtain ⟨m, rfl⟩ := hsyn
    rfl
  have hc : sendCalls data = 0 := by simp [sendCalls, h]
  refine ⟨?_, hsyn⟩
  simp [sendWithRetry, retryAux, hs, hb, hc]

/-- Claim C4 (amended): for a truthy event record, the common-field check
passes iff the `timestamp` property is present, truthy, has a non-empty
string coercion, and that coercion is numerically parseable; in particular a
present but falsy timestamp — such as the number `0` — fails even though it
is coercible to a number (see `timestamp_zero_counterexample`).  Every
timestamp failure message ends with the serialized event body. -/
theorem timestamp_check_characterization (data : JValue) (hd : jsFalsy data = false) :
    (testCommon data = .ok () ↔
      ∃ ts, getProp data "timestamp" = some ts ∧ jsFalsy ts = false ∧
        jsToString ts ≠ "" ∧ jsNumericStr (jsToString ts) = true) ∧
    (∀ e, testCommon data = .error e →
      ∃ pre, e = .syntaxError (pre ++ jsonStringify data)) := by
  unfold testCommon
  rw [hd]
  simp only [Bool.false_eq_true, if_false]
  cases hg : getProp data "timestamp" with
  | none =>
    refine ⟨⟨fun h => by simp at h, ?_⟩, fun e he => ?_⟩
    · rintro ⟨ts, hts, -⟩
      cases hts
    · simp at he
      exact ⟨"The timestamp field must be present: ", he.symm⟩
  | some ts =>
    by_cases hf : jsFalsy ts = true
    · simp only [hf, if_true]
      refine ⟨⟨fun h => by simp at h, ?_⟩, fun e he => ?_⟩
      · rintro ⟨ts2, hts2, hfa, -⟩
        cases hts2
        simp [hfa] at hf
      · simp at he
        exact ⟨"The timestamp field must be present: ", he.symm⟩
    · have hf2 : jsFalsy ts = false := by revert hf; cases jsFalsy ts <;> simp
      simp only [hf2, Bool.false_eq_true, if_false]
      by_cases he : jsToString ts = ""
      · simp only [he, if_true]
        refine ⟨⟨fun h => by simp at h, ?_⟩, fun e he2 => ?_⟩
        · rintro ⟨ts2, hts2, -, hne, -⟩
          cases hts2
          exact absurd he hne
        · simp at he2
          exact ⟨"The timestamp field cannot be null: ", he2.symm⟩
      · rw [if_neg he]
        by_cases hn : jsNumericStr (jsToString ts) = true
        · simp only [hn, Bool.not_true, Bool.false_eq_true, if_false]
          refine ⟨⟨fun _ => ⟨ts, rfl, hf2, he, hn⟩, fun _ => trivial⟩, fun e he2 => ?_⟩
          simp at he2
        · have hn2 : jsNumericStr (jsToString ts) = false := by
            revert hn; cases jsNumericStr (jsToString ts) <;> simp
          simp only [hn2, Bool.not_false, if_true]
          refine ⟨⟨fun h => by simp at h, ?_⟩, fun e he2 => ?_⟩
          · rintro ⟨ts2, hts2, -, -, hnn⟩
            cases hts2
            simp [hnn] at hn2
          · simp at he2
            exact ⟨"The timestamp field must be a Unix timestamp in milliseconds: ", he2.symm⟩

/-- Claim C5 (amended): for every event with valid common fields whose
`event_type` value is present, truthy, and not one of the eight supported
kinds, `validateData` fails with an error naming that unrecognized type;
a present but falsy `event_type` instead yields the generic missing-field
message (see `falsy_event_type_counterexample`). -/
theorem unknown_event_type_named (data et : JValue)
    (hc : testCommon data = .ok ()) (hf : getProp data "event_type" = some et)
    (ht : jsFalsy et = false) (hk : lookupAction et = none) :
    validateData data = .error (.syntaxError ("Unknown event type: " ++ jsToString et)) ∧
    strContainsSub ("Unknown event type: " ++ jsToString et) (jsToString et) = true := by
  constructor
  · rw [validateData_ok_step data hc, hf]
    simp [ht, hk]
  · apply strContainsSub_intro _ _ ("Unknown event type: ").toList []
    simp [String.toList, String.data_append]

theorem validateParameter_blank (n : String) (v : Option String)
    (h : isBlankParam v = true) :
    validateParameter n v = .error (.syntaxError (n ++ " cannot be null or empty")) := by
  cases v with
  | none => rfl
  | some s =>
    have h2 : s = "" ∨ jsTrim s = "" := by simpa [isBlankParam] using h
    rcases h2 with h3 | h3 <;> simp [validateParameter, h3]

theorem validateParameter_ok (n s : String)
    (h : isBlankParam (some s) = false) :
    validateParameter n (some s) = .ok (jsTrim s) := by
  have h2 : ¬(s = "") ∧ ¬(jsTrim s = "") := by
    constructor <;> intro h3 <;> simp [isBlankParam, h3] at h
  simp [validateParameter, h2.1, h2.2]

/-- Claim C6: constructing a connector with any of the three identity
parameters null, empty, or whitespace-only fails with a message naming that
exact parameter; with three valid parameters, construction succeeds and
stores the trimmed value of each. -/
theorem constructor_validation (p h k : Option String) :
    (isBlankParam p = true →
      mkConnector p h k = .error (.syntaxError ("platformID" ++ " cannot be null or empty"))) ∧
    (isBlankParam p = false → isBlankParam h = true →
      mkConnector p h k = .error (.syntaxError ("eventApiHostname" ++ " cannot be null or empty"))) ∧
    (isBlankParam p = false → isBlankParam h = false → isBlankParam k = true →
      mkConnector p h k = .error (.syntaxError ("eventApiKey" ++ " cannot be null or empty"))) ∧
    (∀ ps hs ks, p = some ps → h = some hs → k = some ks →
      isBlankParam p = false → isBlankParam h = false → isBlankParam k = false →
      mkConnector p h k = .ok ⟨jsTrim ps, jsTrim hs, jsTrim ks⟩) := by
  refine ⟨?_, ?_, ?_, ?_⟩
  · intro hp
    unfold mkConnector
    rw [validateParameter_blank _ p hp]
    rfl
  · intro hp hh
    cases p with
    | none => simp [isBlankParam] at hp
    | some ps =>
      unfold mkConnector
      rw [validateParameter_ok _ ps hp, validateParameter_blank _ h hh]
      rfl
  · intro hp hh hk
    cases p with
    | none => simp [isBlankParam] at hp
    | some ps =>
      cases h with
      | none => simp [isBlankParam] at hh
      | some hs =>
        unfold mkConnector
        rw [validateParameter_ok _ ps hp, validateParameter_ok _ hs hh,
          validateParameter_blank _ k hk]
        rfl
  · intro ps hs ks hps hhs hks hp hh hk
    subst hps; subst hhs; subst hks
    unfold mkConnector
    rw [validateParameter_ok _ ps hp, validateParameter_ok _ hs hh, validateParameter_ok _ ks hk]
    rfl

/-- Claim C7: the prune transform is idempotent, `prune(null)` is `null`,
and no key bound to a null/absent value appears anywhere, at any nesting
depth, in the output. -/
theorem prune_idempotent_contract : ∀ v : JValue,
    filterNulls (filterNulls v) = filterNulls v ∧
    filterNulls .jnull = .jnull ∧
    noNullKeys (filterNulls v) = true :=
  fun v => ⟨filterNulls_filterNulls v, rfl, noNullKeys_filterNulls v⟩

/-- Claim C8: a payload containing no null/absent values at any nesting
depth is returned structurally unchanged by the prune transform (which, as
the identity there, preserves element order); scalars pass through unchanged
unconditionally. -/
theorem prune_identity_on_null_free : ∀ v : JValue,
    (nullFree v = true → filterNulls v = v) ∧
    (∀ s, filterNulls (.jstr s) = .jstr s) ∧
    (∀ n, filterNulls (.jnum n) = .jnum n) ∧
    (∀ b, filterNulls (.jbool b) = .jbool b) :=
  fun v => ⟨filterNulls_eq_self v, fun _ => rfl, fun _ => rfl, fun _ => rfl⟩

/-- Claim C10: for a valid event, every delivery-phase failure — transport
exception, null/absent response, or non-2xx status (whose message carries the
status code and body) — is raised as a plain `Error` whose message begins
with `Failed to send request: `, while pre-network failures are raised as
`SyntaxError` and never as such a wrapped plain `Error`, so the two classes
are distinguishable by exception type. -/
theorem error_class_distinction (data : JValue) (o : FetchOutcome) :
    (preNetwork data = none → ∀ e, sendResult data o = .error e →
      ∃ rest, e = .error ("Failed to send request: " ++ rest)) ∧
    (preNetwork data = none → ∀ r, o = .response (some r) → respOk r = false →
      sendResult data o = .error (.error ("Failed to send request: " ++
        ("Request failed: status code: " ++ toString r.status ++ ", reason phrase: " ++ r.body)))) ∧
    (∀ e, preNetwork data = some e →
      (∃ m, e = .syntaxError m) ∧ ∀ rest, e ≠ .error ("Failed to send request: " ++ rest)) := by
  refine ⟨?_, ?_, ?_⟩
  · intro hv e he
    unfold sendResult at he
    rw [hv] at he
    cases o with
    | throws m =>
      simp at he
      exact ⟨m, he.symm⟩
    | response r =>
      cases hh : handleResponse r with
      | ok b => simp only [hh] at he; simp at he
      | error e2 =>
        simp only [hh] at he
        simp at he
        exact ⟨e2.message, he.symm⟩
  · intro hv r hr hbad
    subst hr
    unfold sendResult
    rw [hv]
    simp [handleResponse, hbad, JSError.message]
  · intro e he
    obtain ⟨m, rfl⟩ := preNetwork_syntaxError data e he
    exact ⟨⟨m, rfl⟩, fun rest hcontra => by cases hcontra⟩

theorem testCommon_validEvent : testCommon validEvent = .ok () := by
  have hn : jsNumericStr "1617870506121" = true := by decide
  simp [testCommon, validEvent, getProp, List.lookup, jsFalsy, jsToString, hn]

theorem testCommon_unknownTypeEvent : testCommon unknownTypeEvent = .ok () := by
  have hn : jsNumericStr "1617870506121" = true := by decide
  simp [testCommon, unknownTypeEvent, getProp, List.lookup, jsFalsy, jsToString, hn]

theorem testCommon_falsyTypeEvent : testCommon falsyTypeEvent = .ok () := by
  have hn : jsNumericStr "1617870506121" = true := by decide
  simp [testCommon, falsyTypeEvent, getProp, List.lookup, jsFalsy, jsToString, hn]

theorem validateData_validEvent : validateData validEvent = .ok () := by
  rw [validateData_ok_step validEvent testCommon_validEvent]
  simp [validEvent, getProp, List.lookup, jsFalsy, lookupAction, testActions, runAction, testHome]

theorem preNetwork_validEvent : preNetwork validEvent = none := by
  have h1 : jsFalsy validEvent = false := rfl
  have h2 : jsFalsy (filterNulls validEvent) = false := by
    simp [filterNulls, validEvent, jsFalsy]
  simp only [preNetwork, h1, validateData_validEvent, Bool.false_eq_true, if_false]
  simp [h2]

/-- Counterexample to claim C4 as stated: the event with `timestamp: 0` has
a present timestamp that is coercible to a number (`Number(String(0))` is
`0`, not `NaN`), yet the common-field check fails with a timestamp
data-format error, because the source tests `!data.timestamp` and `0` is
falsy. -/
theorem timestamp_zero_counterexample :
    testCommon zeroTimestampEvent =
      .error (.syntaxError
        ("The timestamp field must be present: " ++ jsonStringify zeroTimestampEvent)) ∧
    getProp zeroTimestampEvent "timestamp" = some (.jnum 0) ∧
    jsNumericStr (jsToString (.jnum 0)) = true := by
  refine ⟨?_, rfl, ?_⟩
  · simp [testCommon, zeroTimestampEvent, getProp, List.lookup, jsFalsy]
  · have h : jsToString (JValue.jnum 0) = "0" := by simp [jsToString]; rfl
    rw [h]
    decide

/-- Counterexample to claim C5 as stated: the event whose `event_type` is
the boolean `false` has a present `event_type` value that is not one of the
eight supported kinds, yet validation fails with the generic message
`The event_type field is missing`, which does not name the type
(`String(false)` is `false`, and the message does not contain it). -/
theorem falsy_event_type_counterexample :
    validateData falsyTypeEvent = .error (.syntaxError "The event_type field is missing") ∧
    getProp falsyTypeEvent "event_type" = some (.jbool false) ∧
    strContainsSub "The event_type field is missing" (jsToString (.jbool false)) = false := by
  refine ⟨?_, rfl, ?_⟩
  · rw [validateData_ok_step falsyTypeEvent testCommon_falsyTypeEvent]
    simp [falsyTypeEvent, getProp, List.lookup, jsFalsy]
  · have h : jsToString (JValue.jbool false) = "false" := by simp [jsToString]
    rw [h]
    decide

/-- Witness for claim C1: a valid HOME event against a transport answering
400 on every attempt yields exactly 3 calls and waits of 100ms and 200ms. -/
theorem retry_exhaustion_witness :
    (sendWithRetry validEvent alwaysBadRequest).calls = 3 ∧
    (sendWithRetry validEvent alwaysBadRequest).waits = [100, 200] := by
  have h2 := retry_exhaustion_three_attempts validEvent alwaysBadRequest
    preNetwork_validEvent (fun i _ => rfl)
  exact ⟨h2.1, h2.2.1⟩

/-- Witness for claim C2: a valid HOME event against a transport answering
200 with body `ok` succeeds on the first call with no waits. -/
theorem first_attempt_success_witness :
    sendWithRetry validEvent alwaysOkBody = ⟨.ok "ok", 1, []⟩ :=
  (first_attempt_success validEvent alwaysOkBody ⟨200, "ok"⟩ preNetwork_validEvent rfl rfl).1

/-- Witness for claim C3: sending `null` fails immediately with zero
network calls even against a healthy transport. -/
theorem permanent_failure_witness :
    sendWithRetry .jnull alwaysOkBody =
      ⟨.error (.syntaxError "The data cannot be null or empty"), 0, []⟩ :=
  (permanent_failure_no_network .jnull (.syntaxError "The data cannot be null or empty")
    alwaysOkBody rfl).1

/-- Witness for claim C4: an event with a numeric-string timestamp passes
the common-field check. -/
theorem timestamp_check_witness : testCommon validEvent = .ok () := by
  have hs : jsToString (JValue.jstr "1617870506121") = "1617870506121" := by
    simp [jsToString]
  refine ((timestamp_check_characterization validEvent rfl).1).mpr
    ⟨.jstr "1617870506121", rfl, rfl, ?_, ?_⟩
  · rw [hs]; decide
  · rw [hs]; decide

/-- Witness for claim C5: an event of type `FOO` fails with a message
naming `FOO`. -/
theorem unknown_event_type_witness :
    validateData unknownTypeEvent =
      .error (.syntaxError ("Unknown event type: " ++ jsToString (.jstr "FOO"))) :=
  (unknown_event_type_named unknownTypeEvent (.jstr "FOO")
    testCommon_unknownTypeEvent rfl rfl rfl).1

/-- Witness for claim C6: valid parameters are stored trimmed; a null
platform id fails naming `platformID`. -/
theorem constructor_validation_witness :
    mkConnector (some "TEST_PLATFORM") (some " api.test.com ") (some "key") =
      .ok ⟨"TEST_PLATFORM", "api.test.com", "key"⟩ ∧
    mkConnector none (some "h") (some "k") =
      .error (.syntaxError ("platformID" ++ " cannot be null or empty")) := by
  constructor
  · have h5 := (constructor_validation (some "TEST_PLATFORM") (some " api.test.com ")
      (some "key")).2.2.2 "TEST_PLATFORM" " api.test.com " "key" rfl rfl rfl (by decide)
      (by decide) (by decide)
    have t1 : jsTrim "TEST_PLATFORM" = "TEST_PLATFORM" := by decide
    have t2 : jsTrim " api.test.com " = "api.test.com" := by decide
    have t3 : jsTrim "key" = "key" := by decide
    rw [t1, t2, t3] at h5
    exact h5
  · exact (constructor_validation none (some "h") (some "k")).1 rfl

/-- Witness for claim C8: a concrete null-free nested payload is returned
unchanged. -/
theorem prune_identity_witness :
    nullFree nullFreePayload = true ∧ filterNulls nullFreePayload = nullFreePayload := by
  have h : nullFree nullFreePayload = true := by
    simp [nullFree, nullFreeEntries, nullFreeList, nullFreePayload]
  exact ⟨h, (prune_identity_on_null_free nullFreePayload).1 h⟩

/-- Witness for claim C10: a transport exception surfaces as a plain
`Error` wrapped with the `Failed to send request: ` prefix. -/
theorem error_class_witness :
    sendResult validEvent (.throws "Network Error") =
      .error (.error ("Failed to send request: " ++ "Network Error")) ∧
    ∃ rest, (JSError.error ("Failed to send request: " ++ "Network Error")) =
      .error ("Failed to send request: " ++ rest) := by
  have hs : sendResult validEvent (.throws "Network Error") =
      .error (.error ("Failed to send request: " ++ "Network Error")) := by
    unfold sendResult
    rw [preNetwork_validEvent]
  exact ⟨hs, (error_class_distinction validEvent (.throws "Network Error")).1
    preNetwork_validEvent _ hs⟩
